import Mathlib

/-!
# Verification of `src/components/useCamera.ts` (LinaQuest)

Shallow embedding of the Vue composition hook `useCamera`.  The source file
contains two variants of the hook (separated by a document marker):

* variant 1 (lines 1–143): two canvases (`canvasRawElement`, `canvasElement`),
  `mood` initialized to `0` and never mutated, filter string
  `sepia(1) saturate(4) hue-rotate(${mood}deg)` assigned in `handleImage`;
* variant 2 (lines 144–304): one canvas plus a `filterElement`, `mood`
  initialized to `180` and updated once per frame by `updateMood`, filter
  string `hue-rotate(${mood}deg)` assigned in `frameCallback`.

Modelling conventions:
* JS numbers holding the mood are modelled by `ℤ` (all arithmetic on them in
  the source is integer arithmetic: `+= 10`, `-= 5`, `:= 0`).
* The external face-api detection result is modelled by `Detection`: the
  floating-point expression scores are abstracted away and only the ranking
  they induce is kept (`rankedExpressions` is the label list in the order
  returned by `expressions.asSortedArray()`, highest score first); landmark
  presence is a `Bool`.
* Asynchronous functions are split at their `await` suspension points into a
  synchronous start step and a completion step; a ghost counter
  (`detInFlight`, `renInFlight`) counts the operations that have been started
  but not yet completed, and a ghost `drawCount` counts invocations of
  `faceapi.draw.drawFaceLandmarks`.  These ghost fields are instrumentation
  only: no guard in the embedded code reads them.
* Availability of DOM refs (`videoElement`, `canvasElement`, the computed
  2D contexts), model-loading status and the video element's
  `paused`/`ended` status are external inputs, collected in an environment
  record supplied per call.
-/

namespace LinaQuest

/-- Detection result stored in `detections.value`: the ranked expression
labels as returned by `expressions.asSortedArray()` (highest score first;
the float scores themselves are abstracted to the order), and whether the
result carries a `landmarks` field. -/
structure Detection where
  rankedExpressions : List String
  hasLandmarks : Bool
deriving DecidableEq

/-- The `switch (expression.expression)` body of `updateMood`
(variant 2, lines 267–282), as a pure function of the top label and the
current mood:
* `happy`: `mood.value = mood.value < 180 ? (mood.value += 10) : 180`
* `neutral`: `mood.value = mood.value > 0 ? (mood.value -= 5) : 0`
* `sad`, `angry`: `mood.value = 0`
* default: `console.log` only, mood unchanged. -/
def moodTransition (label : String) (m : ℤ) : ℤ :=
  if label = "happy" then (if m < 180 then m + 10 else 180)
  else if label = "neutral" then (if m > 0 then m - 5 else 0)
  else if label = "sad" then 0
  else if label = "angry" then 0
  else m

/-- `updateMood` (variant 2, lines 260–287) as a function from the stored
detection and current mood to the new mood: returns unchanged if
`detections.value === undefined` or `asSortedArray()[0] === undefined`,
otherwise applies the switch.  (The trailing `filterElement.style.background`
assignment touches only the DOM, not the mood; it is not part of this
function's value.) -/
def updateMood (detections : Option Detection) (mood : ℤ) : ℤ :=
  match detections with
  | none => mood
  | some d =>
    match d.rankedExpressions.head? with
    | none => mood
    | some label => moodTransition label mood

/-- One mood update per frame (variant 2): fold of `updateMood` over the
sequence of stored detection results seen at successive frames, starting
from the initial value `ref(180)` (line 176). -/
def runMood (events : List (Option Detection)) : ℤ :=
  events.foldl (fun m d => updateMood d m) 180

/-- External environment of variant 2: availability of the DOM refs and the
model/video status read by the guards. -/
structure V2Env where
  videoPresent : Bool
  canvasPresent : Bool
  ctxPresent : Bool
  filterPresent : Bool
  modelLoaded : Bool
  paused : Bool
  ended : Bool
deriving DecidableEq

/-- Mutable state of the variant-2 hook: the `ref` cells (`mood`, `size`,
`detections`, the two gate flags), the canvas pixel dimensions, the last
assigned filter style, plus ghost instrumentation (`detInFlight`,
`renInFlight`, `drawCount`) counting outstanding async operations and
draws. -/
structure V2State where
  mood : ℤ
  size : ℕ × ℕ
  canvasDims : ℕ × ℕ
  detections : Option Detection
  previousLandmarkDrawn : Bool
  previousDetectionFinished : Bool
  filterStyle : Option String
  detInFlight : ℕ
  renInFlight : ℕ
  drawCount : ℕ
deriving DecidableEq

/-- Initial variant-2 state: `mood = ref(180)`, `size = ref([0,0])`,
`detections = ref()` (undefined), both gate flags `ref(true)`; ghost
counters zero, no filter assigned yet. -/
def initV2 : V2State :=
  { mood := 180
    size := (0, 0)
    canvasDims := (0, 0)
    detections := none
    previousLandmarkDrawn := true
    previousDetectionFinished := true
    filterStyle := none
    detInFlight := 0
    renInFlight := 0
    drawCount := 0 }

/-- `resizeCanvas` (variant 2, lines 289–294): skip if `canvasElement` is
undefined, otherwise set its pixel width/height to the given size. -/
def resizeCanvasOn (env : V2Env) (sz : ℕ × ℕ) (s : V2State) : V2State :=
  if env.canvasPresent = false then s
  else { s with canvasDims := sz }

/-- Synchronous prefix of `detectFaces` (variant 2, lines 241–258): the four
early-return guards, then the initiation of the asynchronous
`faceapi.detectSingleFace...` call.  Starting the call increments the ghost
counter; note that the source does NOT assign `previousDetectionFinished`
anywhere in this function. -/
def detectFacesStartOn (env : V2Env) (s : V2State) : V2State :=
  if env.modelLoaded = false then s
  else if env.videoPresent = false then s
  else if env.paused = true ∨ env.ended = true then s
  else if s.previousDetectionFinished = false then s
  else { s with detInFlight := s.detInFlight + 1 }

/-- Resumption of `detectFaces` after its `await` (variant 2, line 254):
stores the result returned by the engine into `detections.value`,
overwriting any prior value; decrements the ghost counter.  The source
touches no gate flag here. -/
def detectFacesComplete (r : Option Detection) (s : V2State) : V2State :=
  { s with detections := r, detInFlight := s.detInFlight - 1 }

/-- Synchronous prefix of `addLandmarks` (variant 2, lines 228–232): the two
early-return guards (`canvasElement` undefined, `!previousLandmarkDrawn`),
then the `await detections.value` suspension is entered; the ghost counter
records one more outstanding render.  The source does NOT assign
`previousLandmarkDrawn` before the await. -/
def addLandmarksStartOn (env : V2Env) (s : V2State) : V2State :=
  if env.canvasPresent = false then s
  else if s.previousLandmarkDrawn = false then s
  else { s with renInFlight := s.renInFlight + 1 }

/-- The conditional draw in `addLandmarks` (variant 2, lines 234–235):
`if (landmarks?.landmarks) faceapi.draw.drawFaceLandmarks(...)`, where the
awaited `landmarks` is the current `detections.value`; ghost `drawCount`
records the invocation. -/
def drawIfLandmarks (s : V2State) : V2State :=
  match s.detections with
  | some d => if d.hasLandmarks = true then { s with drawCount := s.drawCount + 1 } else s
  | none => s

/-- Resumption of `addLandmarks` after its `await` (variant 2, lines
233–237): the conditional draw, then `previousLandmarkDrawn.value = true`
executed unconditionally; the ghost render counter is decremented. -/
def addLandmarksFinish (s : V2State) : V2State :=
  { drawIfLandmarks s with
    previousLandmarkDrawn := true
    renInFlight := (drawIfLandmarks s).renInFlight - 1 }

/-- The `updateMood()` call site as a state transformer (variant 2,
line 220 invoking lines 260–287): replaces the mood by
`updateMood detections mood`. -/
def updateMoodOn (s : V2State) : V2State :=
  { s with mood := updateMood s.detections s.mood }

/-- The filter assignment of variant 2 (line 222):
`canvasElement.style.filter = hue-rotate(${mood.value}deg)`. -/
def setFilterOn (s : V2State) : V2State :=
  { s with filterStyle := some ("hue-rotate(" ++ toString s.mood ++ "deg)") }

/-- `frameCallback` (variant 2, lines 207–225): guard on `ctx`,
`videoElement`, `canvasElement`; store the frame size; `resizeCanvas`;
synchronous prefixes of `detectFaces` and `addLandmarks`; `updateMood`;
assign the `hue-rotate` filter string from the current mood.  (The source
stores `size.value = [w, h]` and then calls `resizeCanvas(size.value)`;
the composition below passes the same pair.) -/
def frameCallbackOn (env : V2Env) (w h : ℕ) (s : V2State) : V2State :=
  if env.ctxPresent = false ∨ env.videoPresent = false ∨ env.canvasPresent = false then s
  else
    setFilterOn (updateMoodOn (addLandmarksStartOn env (detectFacesStartOn env
      (resizeCanvasOn env (w, h) { s with size := (w, h) }))))

/-- Events of the variant-2 machine: a frame callback (with the external
environment and reported frame dimensions), completion of an outstanding
detection (with the engine's result), and resumption of an outstanding
landmark render. -/
inductive V2Event where
  | frame (env : V2Env) (w h : ℕ)
  | detectComplete (r : Option Detection)
  | landmarkResume
deriving DecidableEq

/-- One step of the variant-2 machine. -/
def stepV2 (s : V2State) (e : V2Event) : V2State :=
  match e with
  | .frame env w h => frameCallbackOn env w h s
  | .detectComplete r => detectFacesComplete r s
  | .landmarkResume => addLandmarksFinish s

/-- Run of the variant-2 machine from the initial state. -/
def runV2 (evs : List V2Event) : V2State :=
  evs.foldl stepV2 initV2

/-- An environment in which every guard passes: models loaded, all DOM refs
mounted, video playing. -/
def goodEnv : V2Env :=
  { videoPresent := true
    canvasPresent := true
    ctxPresent := true
    filterPresent := true
    modelLoaded := true
    paused := false
    ended := false }

/-- External environment of variant 1: availability of the DOM refs
(`videoElement`, `canvasElement`, `canvasRawElement`, the two computed
contexts) and the model/video status read by the guards. -/
structure V1Env where
  videoPresent : Bool
  canvasPresent : Bool
  canvasRawPresent : Bool
  ctxPresent : Bool
  ctxRawPresent : Bool
  modelLoaded : Bool
  paused : Bool
  ended : Bool
deriving DecidableEq

/-- Mutable state of the variant-1 hook (lines 1–143): `mood = ref(0)`
(line 29, never assigned elsewhere), `size`, both canvases' pixel
dimensions, `detections`, the two gate flags, the last assigned filter
style, and the same ghost counters as variant 2. -/
structure V1State where
  mood : ℤ
  size : ℕ × ℕ
  canvasDims : ℕ × ℕ
  canvasRawDims : ℕ × ℕ
  detections : Option Detection
  previousLandmarkDrawn : Bool
  previousDetectionFinished : Bool
  filterStyle : Option String
  detInFlight : ℕ
  renInFlight : ℕ
  drawCount : ℕ
deriving DecidableEq

/-- Initial variant-1 state: `mood = ref(0)` (line 29), `size = ref([0,0])`,
`detections = ref()`, both gate flags `ref(true)`. -/
def initV1 : V1State :=
  { mood := 0
    size := (0, 0)
    canvasDims := (0, 0)
    canvasRawDims := (0, 0)
    detections := none
    previousLandmarkDrawn := true
    previousDetectionFinished := true
    filterStyle := none
    detInFlight := 0
    renInFlight := 0
    drawCount := 0 }

/-- `resizeCanvas` (variant 1, lines 126–133): skip unless both
`canvasElement` and `canvasRawElement` are defined; set both canvases'
pixel dimensions to the given size. -/
def resizeCanvasV1On (env : V1Env) (sz : ℕ × ℕ) (s : V1State) : V1State :=
  if env.canvasPresent = false ∨ env.canvasRawPresent = false then s
  else { s with canvasDims := sz, canvasRawDims := sz }

/-- Synchronous prefix of `detectFaces` (variant 1, lines 107–124):
identical guard structure to variant 2; no assignment to
`previousDetectionFinished` anywhere. -/
def detectFacesStartV1On (env : V1Env) (s : V1State) : V1State :=
  if env.modelLoaded = false then s
  else if env.videoPresent = false then s
  else if env.paused = true ∨ env.ended = true then s
  else if s.previousDetectionFinished = false then s
  else { s with detInFlight := s.detInFlight + 1 }

/-- Resumption of `detectFaces` after its `await` (variant 1, line 120):
stores the engine's result, overwriting any prior value. -/
def detectFacesCompleteV1 (r : Option Detection) (s : V1State) : V1State :=
  { s with detections := r, detInFlight := s.detInFlight - 1 }

/-- Synchronous prefix of `addLandmarks` (variant 1, lines 94–99):
identical guard structure to variant 2; no assignment to
`previousLandmarkDrawn` before the await. -/
def addLandmarksStartV1On (env : V1Env) (s : V1State) : V1State :=
  if env.canvasPresent = false then s
  else if s.previousLandmarkDrawn = false then s
  else { s with renInFlight := s.renInFlight + 1 }

/-- The conditional draw in `addLandmarks` (variant 1, lines 100–101),
mirroring `drawIfLandmarks`. -/
def drawIfLandmarksV1 (s : V1State) : V1State :=
  match s.detections with
  | some d => if d.hasLandmarks = true then { s with drawCount := s.drawCount + 1 } else s
  | none => s

/-- Resumption of `addLandmarks` after its `await` (variant 1, lines
99–103): draw if the awaited value has landmarks, then
`previousLandmarkDrawn.value = true` unconditionally. -/
def addLandmarksFinishV1 (s : V1State) : V1State :=
  { drawIfLandmarksV1 s with
    previousLandmarkDrawn := true
    renInFlight := (drawIfLandmarksV1 s).renInFlight - 1 }

/-- The filter template string of variant 1 (line 90):
`sepia(1) saturate(4) hue-rotate(${mood.value}deg)`. -/
def filterStringV1 (m : ℤ) : String :=
  "sepia(1) saturate(4) hue-rotate(" ++ toString m ++ "deg)"

/-- The filter assignment of variant 1 (line 90):
`canvasElement.style.filter = sepia(1) saturate(4) hue-rotate(${mood}deg)`. -/
def setFilterV1On (s : V1State) : V1State :=
  { s with filterStyle := some (filterStringV1 s.mood) }

/-- `handleImage` (variant 1, lines 83–91): guard on `ctx`, `ctxRaw`,
`canvasElement`; synchronous prefixes of `detectFaces` and `addLandmarks`;
assign the sepia/saturate/hue-rotate filter string from the current mood.
There is no `updateMood` in this variant. -/
def handleImageOn (env : V1Env) (s : V1State) : V1State :=
  if env.ctxPresent = false ∨ env.ctxRawPresent = false ∨ env.canvasPresent = false then s
  else setFilterV1On (addLandmarksStartV1On env (detectFacesStartV1On env s))

/-- `frameCallback` (variant 1, lines 65–81): guard on `ctxRaw`,
`videoElement`, `canvasRawElement`; store the frame size; `resizeCanvas`;
`drawImage` onto the raw canvas (no modelled state change); `handleImage`. -/
def frameCallbackV1On (env : V1Env) (w h : ℕ) (s : V1State) : V1State :=
  if env.ctxRawPresent = false ∨ env.videoPresent = false ∨ env.canvasRawPresent = false then s
  else handleImageOn env (resizeCanvasV1On env (w, h) { s with size := (w, h) })

/-- Events of the variant-1 machine. -/
inductive V1Event where
  | frame (env : V1Env) (w h : ℕ)
  | detectComplete (r : Option Detection)
  | landmarkResume
deriving DecidableEq

/-- One step of the variant-1 machine. -/
def stepV1 (s : V1State) (e : V1Event) : V1State :=
  match e with
  | .frame env w h => frameCallbackV1On env w h s
  | .detectComplete r => detectFacesCompleteV1 r s
  | .landmarkResume => addLandmarksFinishV1 s

/-- Run of the variant-1 machine from the initial state. -/
def runV1 (evs : List V1Event) : V1State :=
  evs.foldl stepV1 initV1

/-- A variant-1 environment in which every guard passes. -/
def goodEnvV1 : V1Env :=
  { videoPresent := true
    canvasPresent := true
    canvasRawPresent := true
    ctxPresent := true
    ctxRawPresent := true
    modelLoaded := true
    paused := false
    ended := false }

/-! ## Helper lemmas: no operation of either variant ever assigns `false`
to a gate flag, variant 1 never assigns `mood`, and the composite frame
operations preserve these fields. -/

theorem resizeCanvasOn_pdf (env : V2Env) (sz : ℕ × ℕ) (s : V2State) :
    (resizeCanvasOn env sz s).previousDetectionFinished = s.previousDetectionFinished := by
  unfold resizeCanvasOn; split <;> rfl

theorem resizeCanvasOn_pld (env : V2Env) (sz : ℕ × ℕ) (s : V2State) :
    (resizeCanvasOn env sz s).previousLandmarkDrawn = s.previousLandmarkDrawn := by
  unfold resizeCanvasOn; split <;> rfl

theorem detectFacesStartOn_pdf (env : V2Env) (s : V2State) :
    (detectFacesStartOn env s).previousDetectionFinished = s.previousDetectionFinished := by
  unfold detectFacesStartOn
  repeat' split
  all_goals rfl

theorem detectFacesStartOn_pld (env : V2Env) (s : V2State) :
    (detectFacesStartOn env s).previousLandmarkDrawn = s.previousLandmarkDrawn := by
  unfold detectFacesStartOn
  repeat' split
  all_goals rfl

theorem addLandmarksStartOn_pdf (env : V2Env) (s : V2State) :
    (addLandmarksStartOn env s).previousDetectionFinished = s.previousDetectionFinished := by
  unfold addLandmarksStartOn
  repeat' split
  all_goals rfl

theorem addLandmarksStartOn_pld (env : V2Env) (s : V2State) :
    (addLandmarksStartOn env s).previousLandmarkDrawn = s.previousLandmarkDrawn := by
  unfold addLandmarksStartOn
  repeat' split
  all_goals rfl

theorem addLandmarksFinish_pdf (s : V2State) :
    (addLandmarksFinish s).previousDetectionFinished = s.previousDetectionFinished := by
  unfold addLandmarksFinish drawIfLandmarks
  repeat' split
  all_goals rfl

theorem addLandmarksFinish_pld (s : V2State) :
    (addLandmarksFinish s).previousLandmarkDrawn = true := by
  unfold addLandmarksFinish
  rfl

theorem frameCallbackOn_pdf (env : V2Env) (w h : ℕ) (s : V2State) :
    (frameCallbackOn env w h s).previousDetectionFinished = s.previousDetectionFinished := by
  unfold frameCallbackOn
  split
  · rfl
  · simp only [setFilterOn, updateMoodOn, addLandmarksStartOn_pdf, detectFacesStartOn_pdf,
      resizeCanvasOn_pdf]

theorem frameCallbackOn_pld (env : V2Env) (w h : ℕ) (s : V2State) :
    (frameCallbackOn env w h s).previousLandmarkDrawn = s.previousLandmarkDrawn := by
  unfold frameCallbackOn
  split
  · rfl
  · simp only [setFilterOn, updateMoodOn, addLandmarksStartOn_pld, detectFacesStartOn_pld,
      resizeCanvasOn_pld]

theorem stepV2_inv (s : V2State) (e : V2Event)
    (h1 : s.previousDetectionFinished = true) (h2 : s.previousLandmarkDrawn = true) :
    (stepV2 s e).previousDetectionFinished = true ∧ (stepV2 s e).previousLandmarkDrawn = true := by
  cases e with
  | frame env w h => rw [stepV2, frameCallbackOn_pdf, frameCallbackOn_pld]; exact ⟨h1, h2⟩
  | detectComplete r => exact ⟨h1, h2⟩
  | landmarkResume =>
    refine ⟨?_, ?_⟩
    · rw [stepV2, addLandmarksFinish_pdf]; exact h1
    · rw [stepV2, addLandmarksFinish_pld]

theorem runV2_from_inv (evs : List V2Event) (s : V2State)
    (h1 : s.previousDetectionFinished = true) (h2 : s.previousLandmarkDrawn = true) :
    (evs.foldl stepV2 s).previousDetectionFinished = true ∧
      (evs.foldl stepV2 s).previousLandmarkDrawn = true := by
  induction evs generalizing s with
  | nil => exact ⟨h1, h2⟩
  | cons e t ih =>
    obtain ⟨k1, k2⟩ := stepV2_inv s e h1 h2
    exact ih (stepV2 s e) k1 k2

theorem resizeCanvasV1On_mood (env : V1Env) (sz : ℕ × ℕ) (s : V1State) :
    (resizeCanvasV1On env sz s).mood = s.mood := by
  unfold resizeCanvasV1On; split <;> rfl

theorem resizeCanvasV1On_fs (env : V1Env) (sz : ℕ × ℕ) (s : V1State) :
    (resizeCanvasV1On env sz s).filterStyle = s.filterStyle := by
  unfold resizeCanvasV1On; split <;> rfl

theorem resizeCanvasV1On_pdf (env : V1Env) (sz : ℕ × ℕ) (s : V1State) :
    (resizeCanvasV1On env sz s).previousDetectionFinished = s.previousDetectionFinished := by
  unfold resizeCanvasV1On; split <;> rfl

theorem resizeCanvasV1On_pld (env : V1Env) (sz : ℕ × ℕ) (s : V1State) :
    (resizeCanvasV1On env sz s).previousLandmarkDrawn = s.previousLandmarkDrawn := by
  unfold resizeCanvasV1On; split <;> rfl

theorem detectFacesStartV1On_mood (env : V1Env) (s : V1State) :
    (detectFacesStartV1On env s).mood = s.mood := by
  unfold detectFacesStartV1On
  repeat' split
  all_goals rfl

theorem detectFacesStartV1On_fs (env : V1Env) (s : V1State) :
    (detectFacesStartV1On env s).filterStyle = s.filterStyle := by
  unfold detectFacesStartV1On
  repeat' split
  all_goals rfl

theorem detectFacesStartV1On_pdf (env : V1Env) (s : V1State) :
    (detectFacesStartV1On env s).previousDetectionFinished = s.previousDetectionFinished := by
  unfold detectFacesStartV1On
  repeat' split
  all_goals rfl

theorem detectFacesStartV1On_pld (env : V1Env) (s : V1State) :
    (detectFacesStartV1On env s).previousLandmarkDrawn = s.previousLandmarkDrawn := by
  unfold detectFacesStartV1On
  repeat' split
  all_goals rfl

theorem addLandmarksStartV1On_mood (env : V1Env) (s : V1State) :
    (addLandmarksStartV1On env s).mood = s.mood := by
  unfold addLandmarksStartV1On
  repeat' split
  all_goals rfl

theorem addLandmarksStartV1On_fs (env : V1Env) (s : V1State) :
    (addLandmarksStartV1On env s).filterStyle = s.filterStyle := by
  unfold addLandmarksStartV1On
  repeat' split
  all_goals rfl

theorem addLandmarksStartV1On_pdf (env : V1Env) (s : V1State) :
    (addLandmarksStartV1On env s).previousDetectionFinished = s.previousDetectionFinished := by
  unfold addLandmarksStartV1On
  repeat' split
  all_goals rfl

theorem addLandmarksStartV1On_pld (env : V1Env) (s : V1State) :
    (addLandmarksStartV1On env s).previousLandmarkDrawn = s.previousLandmarkDrawn := by
  unfold addLandmarksStartV1On
  repeat' split
  all_goals rfl

theorem addLandmarksFinishV1_mood (s : V1State) :
    (addLandmarksFinishV1 s).mood = s.mood := by
  unfold addLandmarksFinishV1 drawIfLandmarksV1
  repeat' split
  all_goals rfl

theorem addLandmarksFinishV1_fs (s : V1State) :
    (addLandmarksFinishV1 s).filterStyle = s.filterStyle := by
  unfold addLandmarksFinishV1 drawIfLandmarksV1
  repeat' split
  all_goals rfl

theorem addLandmarksFinishV1_pdf (s : V1State) :
    (addLandmarksFinishV1 s).previousDetectionFinished = s.previousDetectionFinished := by
  unfold addLandmarksFinishV1 drawIfLandmarksV1
  repeat' split
  all_goals rfl

theorem addLandmarksFinishV1_pld (s : V1State) :
    (addLandmarksFinishV1 s).previousLandmarkDrawn = true := by
  unfold addLandmarksFinishV1
  rfl

theorem handleImageOn_mood (env : V1Env) (s : V1State) :
    (handleImageOn env s).mood = s.mood := by
  unfold handleImageOn
  split
  · rfl
  · simp only [setFilterV1On, addLandmarksStartV1On_mood, detectFacesStartV1On_mood]

theorem handleImageOn_pdf (env : V1Env) (s : V1State) :
    (handleImageOn env s).previousDetectionFinished = s.previousDetectionFinished := by
  unfold handleImageOn
  split
  · rfl
  · simp only [setFilterV1On, addLandmarksStartV1On_pdf, detectFacesStartV1On_pdf]

theorem handleImageOn_pld (env : V1Env) (s : V1State) :
    (handleImageOn env s).previousLandmarkDrawn = s.previousLandmarkDrawn := by
  unfold handleImageOn
  split
  · rfl
  · simp only [setFilterV1On, addLandmarksStartV1On_pld, detectFacesStartV1On_pld]

theorem handleImageOn_fs (env : V1Env) (s : V1State) :
    (handleImageOn env s).filterStyle = s.filterStyle ∨
      (handleImageOn env s).filterStyle = some (filterStringV1 s.mood) := by
  unfold handleImageOn
  split
  · left; rfl
  · right
    simp only [setFilterV1On, addLandmarksStartV1On_mood, detectFacesStartV1On_mood]

theorem frameCallbackV1On_mood (env : V1Env) (w h : ℕ) (s : V1State) :
    (frameCallbackV1On env w h s).mood = s.mood := by
  unfold frameCallbackV1On
  split
  · rfl
  · rw [handleImageOn_mood, resizeCanvasV1On_mood]

theorem frameCallbackV1On_pdf (env : V1Env) (w h : ℕ) (s : V1State) :
    (frameCallbackV1On env w h s).previousDetectionFinished = s.previousDetectionFinished := by
  unfold frameCallbackV1On
  split
  · rfl
  · rw [handleImageOn_pdf, resizeCanvasV1On_pdf]

theorem frameCallbackV1On_pld (env : V1Env) (w h : ℕ) (s : V1State) :
    (frameCallbackV1On env w h s).previousLandmarkDrawn = s.previousLandmarkDrawn := by
  unfold frameCallbackV1On
  split
  · rfl
  · rw [handleImageOn_pld, resizeCanvasV1On_pld]

theorem frameCallbackV1On_fs (env : V1Env) (w h : ℕ) (s : V1State) :
    (frameCallbackV1On env w h s).filterStyle = s.filterStyle ∨
      (frameCallbackV1On env w h s).filterStyle = some (filterStringV1 s.mood) := by
  unfold frameCallbackV1On
  split
  · left; rfl
  · rcases handleImageOn_fs env (resizeCanvasV1On env (w, h) { s with size := (w, h) }) with h1 | h1
    · left; rw [h1, resizeCanvasV1On_fs]
    · right; rw [h1, resizeCanvasV1On_mood]

/-- Invariant of the variant-1 machine: both gate flags are `true`, the mood
is still its initial value `0`, and the filter style is either unassigned or
the constant string obtained from mood `0`. -/
def V1Inv (s : V1State) : Prop :=
  s.previousDetectionFinished = true ∧ s.previousLandmarkDrawn = true ∧ s.mood = 0 ∧
    (s.filterStyle = none ∨ s.filterStyle = some "sepia(1) saturate(4) hue-rotate(0deg)")

theorem stepV1_inv (s : V1State) (e : V1Event) (h : V1Inv s) : V1Inv (stepV1 s e) := by
  obtain ⟨h1, h2, h3, h4⟩ := h
  cases e with
  | frame env w h =>
    refine ⟨?_, ?_, ?_, ?_⟩
    · rw [stepV1, frameCallbackV1On_pdf]; exact h1
    · rw [stepV1, frameCallbackV1On_pld]; exact h2
    · rw [stepV1, frameCallbackV1On_mood]; exact h3
    · rcases frameCallbackV1On_fs env w h s with h5 | h5
      · rw [stepV1, h5]; exact h4
      · right
        rw [stepV1, h5, h3]
        rfl
  | detectComplete r => exact ⟨h1, h2, h3, h4⟩
  | landmarkResume =>
    refine ⟨?_, ?_, ?_, ?_⟩
    · rw [stepV1, addLandmarksFinishV1_pdf]; exact h1
    · rw [stepV1, addLandmarksFinishV1_pld]
    · rw [stepV1, addLandmarksFinishV1_mood]; exact h3
    · rw [stepV1, addLandmarksFinishV1_fs]; exact h4

theorem runV1_from_inv (evs : List V1Event) (s : V1State) (h : V1Inv s) :
    V1Inv (evs.foldl stepV1 s) := by
  induction evs generalizing s with
  | nil => exact h
  | cons e t ih => exact ih (stepV1 s e) (stepV1_inv s e h)

/-! ## Claim theorems -/

/-- C1: the claimed "happy" transition `min(m + 10, 180)` does NOT hold on
the code for every mood in `[0, 180]`: at `m = 175` the code yields
`175 + 10 = 185`, not `min(185, 180) = 180`, because the source guards with
`mood < 180` instead of clamping the sum; and `175` is a mood the machine
actually reaches (one "neutral" frame from the initial `180`). -/
theorem happy_transition_overshoots_max :
    moodTransition "happy" 175 = 185 ∧ min (175 + 10 : ℤ) 180 = 180 ∧ (185 : ℤ) ≠ 180 ∧
      (runV2 [.detectComplete (some ⟨["neutral"], false⟩), .frame goodEnv 640 480]).mood = 175 := by
  refine ⟨by decide, by decide, by decide, by decide⟩

/-- C2: the claimed range invariant `0 ≤ mood ≤ 180` is violated by a
reachable state: starting from the initial mood `180`, a frame with top
expression "neutral" followed by a frame with top expression "happy" drives
the mood to `185 > 180`, both in the full variant-2 machine and in the pure
per-frame mood fold. -/
theorem mood_exceeds_max_reachable :
    (runV2 [.detectComplete (some ⟨["neutral"], false⟩), .frame goodEnv 640 480,
        .detectComplete (some ⟨["happy"], false⟩), .frame goodEnv 640 480]).mood = 185 ∧
      runMood [some ⟨["neutral"], false⟩, some ⟨["happy"], false⟩] = 185 ∧
      ¬ ((185 : ℤ) ≤ 180) := by
  refine ⟨by decide, by decide, by decide⟩

/-- C3: the detector gate does not serialize detections: `detectFaces`
never assigns its gate flag (neither when starting a detection nor on
completion), so the flag stays `true` after a start and a second call made
while the first detection is still outstanding starts a second concurrent
detection (two operations in flight), contradicting the claimed
"at most one detection in progress"; completion does store the result,
overwriting any prior one. -/
theorem detector_gate_not_enforced :
    (∀ (env : V2Env) (s : V2State),
        (detectFacesStartOn env s).previousDetectionFinished = s.previousDetectionFinished) ∧
      (∀ (r : Option Detection) (s : V2State),
        (detectFacesComplete r s).previousDetectionFinished = s.previousDetectionFinished) ∧
      (∀ (r : Option Detection) (s : V2State), (detectFacesComplete r s).detections = r) ∧
      (detectFacesStartOn goodEnv initV2).detInFlight = 1 ∧
      (detectFacesStartOn goodEnv initV2).previousDetectionFinished = true ∧
      (detectFacesStartOn goodEnv (detectFacesStartOn goodEnv initV2)).detInFlight = 2 :=
  ⟨detectFacesStartOn_pdf, fun _ _ => rfl, fun _ _ => rfl, by decide, by decide, by decide⟩

/-- C4 counterexample: the claimed "neutral" transition `max(m - 5, 0)`
fails for arbitrary `m ∈ [0, 180]`: at `m = 3` the code takes the `m > 0`
branch and yields `3 - 5 = -2`, not `max(-2, 0) = 0`. -/
theorem neutral_transition_counterexample :
    moodTransition "neutral" 3 = -2 ∧ max (3 - 5 : ℤ) 0 = 0 ∧ ((-2 : ℤ) ≠ 0) := by
  refine ⟨by decide, by decide, by decide⟩

/-- C4 (amended): for every mood `m ∈ [0, 180]` that is a multiple of 5
(the granularity of every value the mood state machine can hold), the
"neutral" transition yields `max(m - 5, 0)`; in particular it is idempotent
at `0`. -/
theorem neutral_transition_clamped_on_multiples (m : ℤ) (h0 : 0 ≤ m) (h180 : m ≤ 180)
    (hdvd : 5 ∣ m) :
    moodTransition "neutral" m = max (m - 5) 0 := by
  unfold moodTransition
  rw [if_neg (by decide), if_pos rfl]
  split <;> omega

/-- C4 witness: the amended "neutral" property evaluated at the concrete
moods `10` and `0` (the latter exhibiting idempotence at MIN). -/
theorem neutral_transition_clamped_witness :
    moodTransition "neutral" 10 = max (10 - 5 : ℤ) 0 ∧
      moodTransition "neutral" 0 = max (0 - 5 : ℤ) 0 :=
  ⟨neutral_transition_clamped_on_multiples 10 (by norm_num) (by norm_num) ⟨2, by norm_num⟩,
   neutral_transition_clamped_on_multiples 0 (by norm_num) (by norm_num) ⟨0, by norm_num⟩⟩

/-- C5: for every starting mood `m`, a "sad" or "angry" top expression sets
the mood to exactly `0 = MIN`, regardless of `m`. -/
theorem sad_angry_reset_to_min (m : ℤ) :
    moodTransition "sad" m = 0 ∧ moodTransition "angry" m = 0 := by
  constructor <;> simp [moodTransition]

/-- C5 witness: the reset evaluated at the concrete mood `42`. -/
theorem sad_angry_reset_witness :
    moodTransition "sad" 42 = 0 ∧ moodTransition "angry" 42 = 0 :=
  sad_angry_reset_to_min 42

/-- C6: the landmark-renderer gate is only half real: `addLandmarks` does
return without drawing when its flag is `false`, and it does set the flag
to `true` after every attempted draw (also when no landmarks are present:
flag `true`, draw count unchanged) — but no code path ever assigns `false`
to the flag, so after one start the flag is still `true` and a second call
made while the first render is outstanding passes the guard, putting two
renders in flight; "never draws during an outstanding render" is therefore
not enforced. -/
theorem landmark_gate_not_enforced :
    (∀ (env : V2Env) (s : V2State),
        (addLandmarksStartOn env s).previousLandmarkDrawn = s.previousLandmarkDrawn) ∧
      (∀ (s : V2State), (addLandmarksFinish s).previousLandmarkDrawn = true) ∧
      (∀ (env : V2Env) (s : V2State),
        addLandmarksStartOn env { s with previousLandmarkDrawn := false } =
          { s with previousLandmarkDrawn := false }) ∧
      (addLandmarksStartOn goodEnv initV2).renInFlight = 1 ∧
      (addLandmarksStartOn goodEnv initV2).previousLandmarkDrawn = true ∧
      (addLandmarksStartOn goodEnv (addLandmarksStartOn goodEnv initV2)).renInFlight = 2 ∧
      (addLandmarksFinish { initV2 with renInFlight := 1 }).previousLandmarkDrawn = true ∧
      (addLandmarksFinish { initV2 with renInFlight := 1 }).drawCount = 0 := by
  refine ⟨addLandmarksStartOn_pld, addLandmarksFinish_pld, ?_, by decide, by decide, by decide,
    by decide, by decide⟩
  intro env s
  unfold addLandmarksStartOn
  repeat' split
  all_goals first
    | rfl
    | simp_all

/-- C7: a top-ranked expression label outside
`{"happy", "neutral", "sad", "angry"}` causes no change to the mood (the
default switch branch only logs), and no transition occurs when there is no
stored detection result. -/
theorem unrecognized_label_no_state_change (label : String) (m : ℤ) (rest : List String)
    (b : Bool) (h1 : label ≠ "happy") (h2 : label ≠ "neutral") (h3 : label ≠ "sad")
    (h4 : label ≠ "angry") :
    moodTransition label m = m ∧
      updateMood (some { rankedExpressions := label :: rest, hasLandmarks := b }) m = m ∧
      updateMood none m = m := by
  refine ⟨?_, ?_, rfl⟩
  · simp [moodTransition, h1, h2, h3, h4]
  · simp [updateMood, moodTransition, h1, h2, h3, h4]

/-- C7 witness: the unrecognized label "surprised" at mood `7` leaves the
mood unchanged, as does the absence of a detection result. -/
theorem unrecognized_label_witness :
    moodTransition "surprised" 7 = 7 ∧
      updateMood (some { rankedExpressions := ["surprised"], hasLandmarks := false }) 7 = 7 ∧
      updateMood none 7 = 7 :=
  unrecognized_label_no_state_change "surprised" 7 [] false (by decide) (by decide) (by decide)
    (by decide)

/-- C8: after each `resizeCanvas` call the drawing surface's pixel
dimensions equal the most recently passed pair — for any two successive
calls with sizes `(a, b)` then `(c, d)` the dimensions are `(a, b)` after
the first and `(c, d)` after the second — provided the canvas element(s)
are available; if they are not, the call is a no-op (variant 2 requires
`canvasElement`, variant 1 requires both canvases and resizes both). -/
theorem resizeCanvas_latest_dimensions (env : V2Env) (env1 : V1Env) (s : V2State) (s1 : V1State)
    (a b c d : ℕ) :
    (env.canvasPresent = true →
      (resizeCanvasOn env (a, b) s).canvasDims = (a, b) ∧
        (resizeCanvasOn env (c, d) (resizeCanvasOn env (a, b) s)).canvasDims = (c, d)) ∧
      (env.canvasPresent = false → resizeCanvasOn env (a, b) s = s) ∧
      (env1.canvasPresent = true → env1.canvasRawPresent = true →
        (resizeCanvasV1On env1 (a, b) s1).canvasDims = (a, b) ∧
          (resizeCanvasV1On env1 (a, b) s1).canvasRawDims = (a, b) ∧
          (resizeCanvasV1On env1 (c, d) (resizeCanvasV1On env1 (a, b) s1)).canvasDims = (c, d) ∧
          (resizeCanvasV1On env1 (c, d) (resizeCanvasV1On env1 (a, b) s1)).canvasRawDims =
            (c, d)) := by
  refine ⟨fun hc => ?_, fun hc => ?_, fun hc hr => ?_⟩
  · simp [resizeCanvasOn, hc]
  · simp [resizeCanvasOn, hc]
  · simp [resizeCanvasV1On, hc, hr]

/-- C8 witness: the spec's example `(640, 480)` then `(1280, 720)` on the
initial state with all elements present, plus the no-op when the canvas is
absent. -/
theorem resizeCanvas_latest_dimensions_witness :
    (resizeCanvasOn goodEnv (1280, 720) (resizeCanvasOn goodEnv (640, 480) initV2)).canvasDims =
        (1280, 720) ∧
      resizeCanvasOn { goodEnv with canvasPresent := false } (640, 480) initV2 = initV2 ∧
      (resizeCanvasV1On goodEnvV1 (1280, 720)
          (resizeCanvasV1On goodEnvV1 (640, 480) initV1)).canvasRawDims = (1280, 720) :=
  ⟨((resizeCanvas_latest_dimensions goodEnv goodEnvV1 initV2 initV1 640 480 1280 720).1 rfl).2,
   (resizeCanvas_latest_dimensions { goodEnv with canvasPresent := false } goodEnvV1 initV2 initV1
      640 480 1280 720).2.1 rfl,
   ((resizeCanvas_latest_dimensions goodEnv goodEnvV1 initV2 initV1 640 480 1280
      720).2.2 rfl rfl).2.2.2⟩

/-- C9: in every reachable state of both variants the two gate flags
`previousDetectionFinished` and `previousLandmarkDrawn` are `true` (no code
path ever assigns `false` to either), so in any reachable state a call with
all external guards satisfied is never suppressed by a flag: it always
starts one more detection / render. -/
theorem gate_flags_always_true (evs : List V2Event) (evs1 : List V1Event) :
    (runV2 evs).previousDetectionFinished = true ∧
      (runV2 evs).previousLandmarkDrawn = true ∧
      (runV1 evs1).previousDetectionFinished = true ∧
      (runV1 evs1).previousLandmarkDrawn = true ∧
      (detectFacesStartOn goodEnv (runV2 evs)).detInFlight = (runV2 evs).detInFlight + 1 ∧
      (addLandmarksStartOn goodEnv (runV2 evs)).renInFlight = (runV2 evs).renInFlight + 1 ∧
      (detectFacesStartV1On goodEnvV1 (runV1 evs1)).detInFlight = (runV1 evs1).detInFlight + 1 ∧
      (addLandmarksStartV1On goodEnvV1 (runV1 evs1)).renInFlight =
        (runV1 evs1).renInFlight + 1 := by
  obtain ⟨h1, h2⟩ := runV2_from_inv evs initV2 rfl rfl
  obtain ⟨k1, k2, k3, k4⟩ := runV1_from_inv evs1 initV1 ⟨rfl, rfl, rfl, Or.inl rfl⟩
  refine ⟨h1, h2, k1, k2, ?_, ?_, ?_, ?_⟩
  · simp [runV2, detectFacesStartOn, goodEnv, h1]
  · simp [runV2, addLandmarksStartOn, goodEnv, h2]
  · simp [runV1, detectFacesStartV1On, goodEnvV1, k1]
  · simp [runV1, addLandmarksStartV1On, goodEnvV1, k2]

/-- C9 witness: the flag invariant and non-suppression evaluated after one
concrete frame event in each variant. -/
theorem gate_flags_always_true_witness :
    (runV2 [V2Event.frame goodEnv 640 480]).previousDetectionFinished = true ∧
      (runV2 [V2Event.frame goodEnv 640 480]).previousLandmarkDrawn = true ∧
      (runV1 [V1Event.frame goodEnvV1 640 480]).previousDetectionFinished = true ∧
      (runV1 [V1Event.frame goodEnvV1 640 480]).previousLandmarkDrawn = true ∧
      (detectFacesStartOn goodEnv (runV2 [V2Event.frame goodEnv 640 480])).detInFlight =
        (runV2 [V2Event.frame goodEnv 640 480]).detInFlight + 1 ∧
      (addLandmarksStartOn goodEnv (runV2 [V2Event.frame goodEnv 640 480])).renInFlight =
        (runV2 [V2Event.frame goodEnv 640 480]).renInFlight + 1 ∧
      (detectFacesStartV1On goodEnvV1 (runV1 [V1Event.frame goodEnvV1 640 480])).detInFlight =
        (runV1 [V1Event.frame goodEnvV1 640 480]).detInFlight + 1 ∧
      (addLandmarksStartV1On goodEnvV1 (runV1 [V1Event.frame goodEnvV1 640 480])).renInFlight =
        (runV1 [V1Event.frame goodEnvV1 640 480]).renInFlight + 1 :=
  gate_flags_always_true [V2Event.frame goodEnv 640 480] [V1Event.frame goodEnvV1 640 480]

/-- C10: in variant 1 the mood is `0` in every reachable state (no
operation mutates it, including a further frame on any reachable state),
so the filter string, whenever assigned, is the constant
`sepia(1) saturate(4) hue-rotate(0deg)`; variant 2 instead starts at mood
`180` and updates it per frame (a single "sad" frame moves it to `0`), so
the two variants are not equivalent in mood behavior. -/
theorem variant1_mood_constant (evs : List V1Event) (w h : ℕ) :
    (runV1 evs).mood = 0 ∧
      ((runV1 evs).filterStyle = none ∨
        (runV1 evs).filterStyle = some "sepia(1) saturate(4) hue-rotate(0deg)") ∧
      (frameCallbackV1On goodEnvV1 w h (runV1 evs)).mood = 0 ∧
      initV1.mood = 0 ∧ initV2.mood = 180 ∧
      (runV2 [.detectComplete (some ⟨["sad"], false⟩), .frame goodEnv 640 480]).mood = 0 := by
  obtain ⟨k1, k2, k3, k4⟩ := runV1_from_inv evs initV1 ⟨rfl, rfl, rfl, Or.inl rfl⟩
  refine ⟨k3, k4, ?_, rfl, rfl, by decide⟩
  rw [frameCallbackV1On_mood]
  exact k3

/-- C10 witness: the constant-mood property of variant 1 evaluated after
one concrete frame event. -/
theorem variant1_mood_constant_witness :
    (runV1 [V1Event.frame goodEnvV1 640 480]).mood = 0 ∧
      ((runV1 [V1Event.frame goodEnvV1 640 480]).filterStyle = none ∨
        (runV1 [V1Event.frame goodEnvV1 640 480]).filterStyle =
          some "sepia(1) saturate(4) hue-rotate(0deg)") ∧
      (frameCallbackV1On goodEnvV1 640 480 (runV1 [V1Event.frame goodEnvV1 640 480])).mood = 0 ∧
      initV1.mood = 0 ∧ initV2.mood = 180 ∧
      (runV2 [.detectComplete (some ⟨["sad"], false⟩), .frame goodEnv 640 480]).mood = 0 :=
  variant1_mood_constant [V1Event.frame goodEnvV1 640 480] 640 480

end LinaQuest
